import Mathlib

/-
Verification of the NexoWatt EMS simulator (iobroker.nexowatt-sim, src/main.js).

This file gives a shallow embedding, in Lean 4, of the core of the simulator:
the deterministic LCG random generator, the per-tick EVCS charging step, the
storage step, the grid balance, the scenario/suite lifecycle state machines,
the change publisher (`_setChanged`), departure-time parsing and the numeric
command-write dispatcher (`_applyWrite`).

JavaScript numbers are modelled by `ℚ` (all the operations involved in the
verified properties - +, -, *, /, min, max, comparisons - are exact here;
where IEEE-754 non-finite values matter, the type `JNum` makes NaN/±Infinity
explicit).  Transcendental functions used by the Box-Muller transform
(`Math.sqrt`, `Math.log`, `Math.cos`, `Math.sin`, `Math.PI`) are abstracted
as an arbitrary `RealOps` parameter: every verified property holds for every
choice of these operations.
-/

namespace NexoWattSim

/-- JS helper `clamp(value, min, max)` from src/main.js, for an already-finite
numeric value: `Math.min(max, Math.max(min, value))`. -/
def clamp (v lo hi : ℚ) : ℚ := min hi (max lo v)

/-! ### DeterministicRandom (`class LcgRandom`, src/main.js lines 27-54) -/

/-- One LCG step: `this._state = (1664525 * this._state + 1013904223) >>> 0`.
Since the state is `< 2^32`, the product stays below `2^53`, hence the JS
float computation is exact and `>>> 0` is reduction mod `2^32`. -/
def lcgStep (s : ℕ) : ℕ := (1664525 * s + 1013904223) % 4294967296

/-- Generator state: the 32-bit LCG state plus the cached Box-Muller spare
(`this._spareNormal`). -/
structure RngState where
  state : ℕ
  spare : Option ℚ
deriving DecidableEq, Repr

/-- Source `constructor(seed)`: `this._state = (Number(seed) >>> 0) || 1`. -/
def lcgInit (seed : ℕ) : RngState :=
  let s := seed % 4294967296
  ⟨if s = 0 then 1 else s, none⟩

/-- Source `next()`: advance the state and return `state / 0x100000000`. -/
def rngNext (g : RngState) : ℚ × RngState :=
  let s2 := lcgStep g.state
  ((s2 : ℚ) / 4294967296, ⟨s2, g.spare⟩)

/-- Source `while (u === 0) u = this.next();` starting from `u = 0`: the loop body
runs at least once; a second draw happens only when the first returned `0`
(i.e. the new LCG state is `0`), and `lcgStep 0 = 1013904223 ≠ 0`, so the
loop terminates after at most two draws. -/
def drawNonzero (g : RngState) : ℚ × RngState :=
  let d := rngNext g
  if d.1 = 0 then rngNext d.2 else d

/-- The abstract real-valued operations used by `normal()`. -/
structure RealOps where
  sqrt : ℚ → ℚ
  log : ℚ → ℚ
  cos : ℚ → ℚ
  sin : ℚ → ℚ
  pi : ℚ

/-- The fresh Box-Muller pair `(z0, z1)` drawn by `normal()` when no spare is
cached, together with the generator state after the two uniform draws. -/
def boxMuller (ops : RealOps) (g : RngState) : (ℚ × ℚ) × RngState :=
  let d1 := drawNonzero g
  let d2 := drawNonzero d1.2
  let mag := ops.sqrt (-2 * ops.log d1.1)
  let z0 := mag * ops.cos (2 * ops.pi * d2.1)
  let z1 := mag * ops.sin (2 * ops.pi * d2.1)
  ((z0, z1), d2.2)

/-- Source `normal(mu, sigma)`: return the cached spare if present (clearing it),
else draw a fresh Box-Muller pair, cache `z1` and return `mu + sigma * z0`. -/
def rngNormal (ops : RealOps) (mu sigma : ℚ) (g : RngState) : ℚ × RngState :=
  match g.spare with
  | some z => (mu + sigma * z, ⟨g.state, none⟩)
  | none =>
    let r := boxMuller ops g
    (mu + sigma * r.1.1, ⟨r.2.state, some r.1.2⟩)

/-- An interleaved call to the generator. -/
inductive RngCall where
  | next : RngCall
  | normal (mu sigma : ℚ) : RngCall
deriving DecidableEq, Repr

/-- Replay a sequence of `next()` / `normal()` calls, collecting the output
stream. -/
def runRng (ops : RealOps) : List RngCall → RngState → List ℚ × RngState
  | [], g => ([], g)
  | c :: cs, g =>
    let r := match c with
      | .next => rngNext g
      | .normal mu sigma => rngNormal ops mu sigma g
    let rest := runRng ops cs r.2
    (r.1 :: rest.1, rest.2)

/-- The claimed LCG state-update formula, for reference in `spec_C1`. -/
theorem lcgStep_lt (s : ℕ) : lcgStep s < 4294967296 :=
  Nat.mod_lt _ (by norm_num)

/-- C1 — For every seed, replaying the same interleaved `next()`/`normal()`
call sequence on two independently created generators yields an identical
output stream; `next()` advances the state by
`state := (1664525 * state + 1013904223) mod 2^32` and returns
`state / 2^32 ∈ [0, 1)`; and `normal(mu, sigma)` caches the second Box-Muller
sample: a `normal` call from a spare-free state stores `z1`, and the
immediately following `normal(mu', sigma')` call returns `mu' + sigma' * z1`
without advancing the LCG state, clearing the cache. -/
theorem spec_C1 (ops ops' : RealOps) (seed : ℕ) (calls : List RngCall)
    (g : RngState) (s : ℕ) (mu sigma mu' sigma' : ℚ) :
    (ops = ops' → runRng ops calls (lcgInit seed) = runRng ops' calls (lcgInit seed))
    ∧ (rngNext g).2.state = (1664525 * g.state + 1013904223) % 4294967296
    ∧ (rngNext g).1 = ((lcgStep g.state : ℕ) : ℚ) / 4294967296
    ∧ 0 ≤ (rngNext g).1 ∧ (rngNext g).1 < 1
    ∧ (rngNormal ops mu sigma ⟨s, none⟩).2.spare = some (boxMuller ops ⟨s, none⟩).1.2
    ∧ rngNormal ops mu' sigma' ((rngNormal ops mu sigma ⟨s, none⟩).2)
        = (mu' + sigma' * (boxMuller ops ⟨s, none⟩).1.2,
           ⟨(rngNormal ops mu sigma ⟨s, none⟩).2.state, none⟩) := by
  refine ⟨fun h => by rw [h], rfl, rfl, ?_, ?_, rfl, rfl⟩
  · have : (0 : ℚ) ≤ ((lcgStep g.state : ℕ) : ℚ) := by positivity
    simpa [rngNext] using div_nonneg this (by norm_num)
  · have h := lcgStep_lt g.state
    have hq : ((lcgStep g.state : ℕ) : ℚ) < 4294967296 := by exact_mod_cast h
    simpa [rngNext] using (div_lt_one (by norm_num : (0:ℚ) < 4294967296)).mpr hq

/-- Closed witness for `spec_C1` at concrete inputs. -/
theorem spec_C1_witness :
    runRng ⟨id, id, id, id, 3⟩ [RngCall.next] (lcgInit 1337)
      = runRng ⟨id, id, id, id, 3⟩ [RngCall.next] (lcgInit 1337) :=
  (spec_C1 ⟨id, id, id, id, 3⟩ ⟨id, id, id, id, 3⟩ 1337 [RngCall.next]
    ⟨1, none⟩ 1 0 1 0 1).1 rfl

/-! ### EVCS charge points (per-charger part of `_tick`, src/main.js lines 2952-3030) -/

/-- Source `dcTaperFactor(socPct)` (src/main.js lines 90-96): full power up to 80 %
SoC, then linear down, clamped to `[0.2, 1]`. -/
def dcTaperFactor (socPct : ℚ) : ℚ :=
  if clamp socPct 0 100 ≤ 80 then 1
  else clamp (1 - 8/10 * ((clamp socPct 0 100 - 80) / 20)) (2/10) 1

/-- Source `ch.sim` fault-injection flags. -/
structure SimFlags where
  faulted : Bool
  unavailable : Bool
  meter_freeze : Bool
deriving DecidableEq, Repr

/-- Source `ch.ctrl` charge-point controls. -/
structure EvCtrl where
  enabled : Bool
  limit_kw : ℚ
  plugged : Bool
  priority : ℚ
deriving DecidableEq, Repr

/-- Source `ch.vehicle` session data. -/
structure Vehicle where
  id : String
  soc_pct : ℚ
  capacity_kwh : ℚ
  max_charge_kw : ℚ
  target_soc_pct : ℚ
  departure_time : String
  departure_ts : Option ℚ
deriving DecidableEq, Repr

/-- Source `ch.meas` measurements. -/
structure EvMeas where
  status : String
  power_kw : ℚ
  energy_kwh : ℚ
deriving DecidableEq, Repr

/-- One charge point of the EVCS fleet. -/
structure ChargePoint where
  id : String
  type : String
  max_kw : ℚ
  sim : SimFlags
  ctrl : EvCtrl
  vehicle : Vehicle
  meas : EvMeas
deriving DecidableEq, Repr

/-- Source `const capKwh = Math.max(0.1, ch.vehicle.capacity_kwh)`. -/
def capKwh (ch : ChargePoint) : ℚ := max (1/10) ch.vehicle.capacity_kwh

/-- Source `const targetSoc = clamp(ch.vehicle.target_soc_pct, 0, 100)`. -/
def chargeTarget (ch : ChargePoint) : ℚ := clamp ch.vehicle.target_soc_pct 0 100

/-- Source `const energyNeedKwh = Math.max(0, (targetSoc - soc) / 100 * capKwh)`. -/
def energyNeedKwh (ch : ChargePoint) : ℚ :=
  max 0 ((chargeTarget ch - ch.vehicle.soc_pct) / 100 * capKwh ch)

/-- Source `const limitKw = clamp(ch.ctrl.limit_kw, 0, 10000)`. -/
def chargeLimitKw (ch : ChargePoint) : ℚ := clamp ch.ctrl.limit_kw 0 10000

/-- Source `let p = Math.min(limitKw, ch.max_kw, ch.vehicle.max_charge_kw)`. -/
def chargeP0 (ch : ChargePoint) : ℚ :=
  min (min (chargeLimitKw ch) ch.max_kw) ch.vehicle.max_charge_kw

/-- Source `if (ch.type === 'dc') p *= dcTaperFactor(ch.vehicle.soc_pct)`. -/
def chargeP1 (ch : ChargePoint) : ℚ :=
  if ch.type = "dc" then chargeP0 ch * dcTaperFactor ch.vehicle.soc_pct else chargeP0 ch

/-- Source `const maxStepKwh = Math.max(0, p * dtH)`. -/
def chargeMaxStepKwh (ch : ChargePoint) (dtH : ℚ) : ℚ :=
  max 0 (chargeP1 ch * dtH)

/-- The charge power computed in the charging branch of `_tick`: the
`min(limit, max_kw, vehicle max)` power, DC tapering, the energy-need clamp
(`if (maxStepKwh > energyNeedKwh && dtH > 0) p = energyNeedKwh / dtH`), then
the final `p = clamp(p, 0, ch.max_kw)`. -/
def chargePower (ch : ChargePoint) (dtH : ℚ) : ℚ :=
  clamp
    (if energyNeedKwh ch < chargeMaxStepKwh ch dtH ∧ 0 < dtH
      then energyNeedKwh ch / dtH else chargeP1 ch)
    0 ch.max_kw

/-- Source `const deliveredKwh = p * dtH * eff` with `eff = 0.96`. -/
def chargeDelivered (ch : ChargePoint) (dtH : ℚ) : ℚ :=
  chargePower ch dtH * dtH * (96/100)

/-- The charging branch of the per-charger loop: write `meas.power_kw`,
`meas.status`, accumulate `meas.energy_kwh` and integrate `vehicle.soc_pct`. -/
def evcsCharge (ch : ChargePoint) (dtH : ℚ) : ChargePoint :=
  let p := chargePower ch dtH
  { ch with
    meas := { ch.meas with
      power_kw := p,
      status := if 1/100 < p then "Charging" else "Suspended",
      energy_kwh := clamp (ch.meas.energy_kwh + chargeDelivered ch dtH) 0 1000000 },
    vehicle := { ch.vehicle with
      soc_pct := clamp (ch.vehicle.soc_pct + chargeDelivered ch dtH / capKwh ch * 100) 0 100 } }

/-- The full per-charger step of `_tick`, in the source's priority order:
unavailable, faulted, meter freeze (everything held), unplugged, finished
(SoC within 0.01 of target), disabled, else charging. -/
def evcsStep (ch : ChargePoint) (dtH : ℚ) : ChargePoint :=
  if ch.sim.unavailable then
    { ch with meas := { ch.meas with power_kw := 0, status := "Unavailable" } }
  else if ch.sim.faulted then
    { ch with meas := { ch.meas with power_kw := 0, status := "Faulted" } }
  else if ch.sim.meter_freeze then ch
  else if ¬ch.ctrl.plugged then
    { ch with meas := { ch.meas with power_kw := 0, status := "Available" } }
  else if chargeTarget ch - 1/100 ≤ ch.vehicle.soc_pct then
    { ch with meas := { ch.meas with power_kw := 0, status := "Finished" },
              vehicle := { ch.vehicle with soc_pct := clamp ch.vehicle.soc_pct 0 100 } }
  else if ¬ch.ctrl.enabled then
    { ch with meas := { ch.meas with power_kw := 0, status := "Preparing" } }
  else evcsCharge ch dtH

theorem dcTaperFactor_le_one (soc : ℚ) : dcTaperFactor soc ≤ 1 := by
  unfold dcTaperFactor clamp
  split
  · exact le_rfl
  · exact min_le_left _ _

theorem dcTaperFactor_pos (soc : ℚ) : 0 < dcTaperFactor soc := by
  unfold dcTaperFactor clamp
  split
  · norm_num
  · have h1 : (2/10 : ℚ) ≤ max (2/10 : ℚ)
        (1 - 8/10 * ((min 100 (max 0 soc) - 80) / 20)) := le_max_left _ _
    exact lt_min (by norm_num) (lt_of_lt_of_le (by norm_num) h1)

theorem chargePower_nonneg (ch : ChargePoint) (dtH : ℚ)
    (hm : 0 ≤ ch.max_kw) : 0 ≤ chargePower ch dtH := by
  unfold chargePower clamp
  exact le_min hm (le_max_left _ _)

theorem chargeLimitKw_nonneg (ch : ChargePoint) : 0 ≤ chargeLimitKw ch := by
  unfold chargeLimitKw clamp
  exact le_min (by norm_num) (le_max_left _ _)

theorem chargeP0_nonneg (ch : ChargePoint) (hm : 0 ≤ ch.max_kw)
    (hv : 0 ≤ ch.vehicle.max_charge_kw) : 0 ≤ chargeP0 ch :=
  le_min (le_min (chargeLimitKw_nonneg ch) hm) hv

theorem chargeP1_le_chargeP0 (ch : ChargePoint) (hm : 0 ≤ ch.max_kw)
    (hv : 0 ≤ ch.vehicle.max_charge_kw) : chargeP1 ch ≤ chargeP0 ch := by
  unfold chargeP1
  split
  · calc chargeP0 ch * dcTaperFactor ch.vehicle.soc_pct ≤ chargeP0 ch * 1 :=
        mul_le_mul_of_nonneg_left (dcTaperFactor_le_one _) (chargeP0_nonneg ch hm hv)
      _ = chargeP0 ch := mul_one _
  · exact le_rfl

theorem chargeP1_nonneg (ch : ChargePoint) (hm : 0 ≤ ch.max_kw)
    (hv : 0 ≤ ch.vehicle.max_charge_kw) : 0 ≤ chargeP1 ch := by
  unfold chargeP1
  split
  · exact mul_nonneg (chargeP0_nonneg ch hm hv) (dcTaperFactor_pos _).le
  · exact chargeP0_nonneg ch hm hv

/-- The power before the final `clamp(p, 0, max_kw)` already bounds the final
power from above whenever the limits are nonnegative. -/
theorem chargePower_le_pre (ch : ChargePoint) (dtH : ℚ)
    (hl : 0 ≤ ch.ctrl.limit_kw) (hm : 0 ≤ ch.max_kw)
    (hv : 0 ≤ ch.vehicle.max_charge_kw) :
    chargePower ch dtH
      ≤ min (min ch.ctrl.limit_kw ch.max_kw) ch.vehicle.max_charge_kw := by
  have hp0le : chargeP0 ch
      ≤ min (min ch.ctrl.limit_kw ch.max_kw) ch.vehicle.max_charge_kw := by
    have hlimle : chargeLimitKw ch ≤ ch.ctrl.limit_kw := by
      unfold chargeLimitKw clamp
      calc min 10000 (max 0 ch.ctrl.limit_kw) ≤ max 0 ch.ctrl.limit_kw := min_le_right _ _
        _ = ch.ctrl.limit_kw := max_eq_right hl
    unfold chargeP0
    gcongr
  have h1 := chargeP1_le_chargeP0 ch hm hv
  unfold chargePower
  by_cases hcond : energyNeedKwh ch < chargeMaxStepKwh ch dtH ∧ 0 < dtH
  · rw [if_pos hcond]
    obtain ⟨hlt, hdt⟩ := hcond
    have hneed : 0 ≤ energyNeedKwh ch := le_max_left _ _
    have hstep : energyNeedKwh ch < chargeP1 ch * dtH := by
      rcases le_or_lt (chargeP1 ch * dtH) 0 with h | h
      · exact absurd hlt (by unfold chargeMaxStepKwh; simp [max_eq_left h]; linarith)
      · simpa [chargeMaxStepKwh, max_eq_right h.le] using hlt
    have hdiv : energyNeedKwh ch / dtH ≤ chargeP1 ch :=
      le_of_lt ((div_lt_iff₀ hdt).mpr (by linarith))
    have hdivn : 0 ≤ energyNeedKwh ch / dtH := div_nonneg hneed hdt.le
    calc clamp (energyNeedKwh ch / dtH) 0 ch.max_kw
        ≤ max 0 (energyNeedKwh ch / dtH) := min_le_right _ _
      _ = energyNeedKwh ch / dtH := max_eq_right hdivn
      _ ≤ chargeP1 ch := hdiv
      _ ≤ chargeP0 ch := h1
      _ ≤ _ := hp0le
  · rw [if_neg hcond]
    calc clamp (chargeP1 ch) 0 ch.max_kw ≤ max 0 (chargeP1 ch) := min_le_right _ _
      _ = chargeP1 ch := max_eq_right (chargeP1_nonneg ch hm hv)
      _ ≤ chargeP0 ch := h1
      _ ≤ _ := hp0le

/-- C2 — Delivered charge power written to `meas.power_kw` never exceeds
`min(ctrl.limit_kw, max_kw, vehicle.max_charge_kw)` whenever the tick writes
it (a `meter_freeze` point keeps its previous value and writes nothing), and
the DC taper factor only ever reduces a nonnegative power. -/
theorem spec_C2 (ch : ChargePoint) (dtH : ℚ)
    (hfr : ch.sim.meter_freeze = false)
    (hl : 0 ≤ ch.ctrl.limit_kw) (hm : 0 ≤ ch.max_kw)
    (hv : 0 ≤ ch.vehicle.max_charge_kw) :
    (evcsStep ch dtH).meas.power_kw
        ≤ min (min ch.ctrl.limit_kw ch.max_kw) ch.vehicle.max_charge_kw
    ∧ (∀ p soc : ℚ, 0 ≤ p → p * dcTaperFactor soc ≤ p)
    ∧ (∀ ch' : ChargePoint, ch'.sim.meter_freeze = true →
        ch'.sim.unavailable = false → ch'.sim.faulted = false →
        (evcsStep ch' dtH).meas.power_kw = ch'.meas.power_kw) := by
  refine ⟨?_, ?_, ?_⟩
  · have hmin : 0 ≤ min (min ch.ctrl.limit_kw ch.max_kw) ch.vehicle.max_charge_kw :=
      le_min (le_min hl hm) hv
    unfold evcsStep
    split
    · simpa using hmin
    split
    · simpa using hmin
    split
    · simp_all
    split
    · simpa using hmin
    split
    · simpa using hmin
    split
    · simpa using hmin
    · simpa [evcsCharge] using chargePower_le_pre ch dtH hl hm hv
  · intro p soc hp
    calc p * dcTaperFactor soc ≤ p * 1 :=
          mul_le_mul_of_nonneg_left (dcTaperFactor_le_one soc) hp
      _ = p := mul_one p
  · intro ch' h1 h2 h3
    simp [evcsStep, h1, h2, h3]

/-- Closed witness for `spec_C2`: a plugged, enabled AC point with a 7 kW
limit on a 22 kW charger never reports more than 7 kW. -/
theorem spec_C2_witness :
    (evcsStep
      ⟨"c01", "ac", 22, ⟨false, false, false⟩, ⟨true, 7, true, 5⟩,
        ⟨"car", 50, 60, 11, 100, "06:15", none⟩, ⟨"Charging", 0, 0⟩⟩
      (1/3600)).meas.power_kw
      ≤ min (min (7:ℚ) 22) 11 :=
  (spec_C2
    ⟨"c01", "ac", 22, ⟨false, false, false⟩, ⟨true, 7, true, 5⟩,
      ⟨"car", 50, 60, 11, 100, "06:15", none⟩, ⟨"Charging", 0, 0⟩⟩
    (1/3600) rfl (by norm_num) (by norm_num) (by norm_num)).1

theorem capKwh_pos (ch : ChargePoint) : 0 < capKwh ch :=
  lt_of_lt_of_le (by norm_num) (le_max_left _ _)

theorem chargeTarget_nonneg (ch : ChargePoint) : 0 ≤ chargeTarget ch := by
  unfold chargeTarget clamp
  exact le_min (by norm_num) (le_max_left _ _)

/-- The energy-need clamp works: the final charge power times the timestep
never exceeds the energy still needed. -/
theorem chargePower_mul_dtH_le (ch : ChargePoint) (dtH : ℚ)
    (hdt : 0 < dtH) :
    chargePower ch dtH * dtH ≤ energyNeedKwh ch := by
  unfold chargePower
  by_cases hcond : energyNeedKwh ch < chargeMaxStepKwh ch dtH ∧ 0 < dtH
  · rw [if_pos hcond]
    have hneed : 0 ≤ energyNeedKwh ch := le_max_left _ _
    have hq : 0 ≤ energyNeedKwh ch / dtH := div_nonneg hneed hdt.le
    have hle : clamp (energyNeedKwh ch / dtH) 0 ch.max_kw ≤ energyNeedKwh ch / dtH := by
      unfold clamp
      calc min ch.max_kw (max 0 (energyNeedKwh ch / dtH)) ≤ max 0 (energyNeedKwh ch / dtH) :=
            min_le_right _ _
        _ = energyNeedKwh ch / dtH := max_eq_right hq
    calc clamp (energyNeedKwh ch / dtH) 0 ch.max_kw * dtH
        ≤ energyNeedKwh ch / dtH * dtH := mul_le_mul_of_nonneg_right hle hdt.le
      _ = energyNeedKwh ch := div_mul_cancel₀ _ hdt.ne'
  · rw [if_neg hcond]
    have hge : chargeMaxStepKwh ch dtH ≤ energyNeedKwh ch := by
      rcases not_and_or.mp hcond with h | h
      · exact le_of_not_lt h
      · exact absurd hdt h
    have hle : clamp (chargeP1 ch) 0 ch.max_kw ≤ max 0 (chargeP1 ch) := min_le_right _ _
    calc clamp (chargeP1 ch) 0 ch.max_kw * dtH ≤ max 0 (chargeP1 ch) * dtH :=
          mul_le_mul_of_nonneg_right hle hdt.le
      _ = max (0 * dtH) (chargeP1 ch * dtH) := max_mul_of_nonneg _ _ hdt.le
      _ = chargeMaxStepKwh ch dtH := by rw [zero_mul]; rfl
      _ ≤ energyNeedKwh ch := hge

/-- C3 — In the charging branch, the charge power is clamped so that
`p * dtH` never exceeds the energy still needed to reach the target SoC;
the delivered energy is `p * dtH * 0.96`; `energy_kwh` and `soc_pct` are
updated from the delivered energy over capacity; and the SoC never moves
past `target_soc_pct` within the tick. -/
theorem spec_C3 (ch : ChargePoint) (dtH : ℚ)
    (hu : ch.sim.unavailable = false) (hf : ch.sim.faulted = false)
    (hz : ch.sim.meter_freeze = false) (hp : ch.ctrl.plugged = true)
    (he : ch.ctrl.enabled = true)
    (hsoc : ch.vehicle.soc_pct < chargeTarget ch - 1/100)
    (hm : 0 ≤ ch.max_kw) (hdt : 0 < dtH) :
    evcsStep ch dtH = evcsCharge ch dtH
    ∧ chargePower ch dtH * dtH ≤ energyNeedKwh ch
    ∧ chargeDelivered ch dtH = chargePower ch dtH * dtH * (96/100)
    ∧ (evcsStep ch dtH).meas.energy_kwh
        = clamp (ch.meas.energy_kwh + chargeDelivered ch dtH) 0 1000000
    ∧ (evcsStep ch dtH).vehicle.soc_pct
        = clamp (ch.vehicle.soc_pct + chargeDelivered ch dtH / capKwh ch * 100) 0 100
    ∧ (evcsStep ch dtH).vehicle.soc_pct ≤ chargeTarget ch
    ∧ (0 ≤ ch.vehicle.target_soc_pct →
        (evcsStep ch dtH).vehicle.soc_pct ≤ ch.vehicle.target_soc_pct) := by
  have hbranch : evcsStep ch dtH = evcsCharge ch dtH := by
    unfold evcsStep
    split_ifs
    all_goals first | rfl | linarith | simp_all
  have hbound := chargePower_mul_dtH_le ch dtH hdt
  have hcap := capKwh_pos ch
  have htgt := chargeTarget_nonneg ch
  have hdel : chargeDelivered ch dtH ≤ energyNeedKwh ch := by
    have hpw : 0 ≤ chargePower ch dtH * dtH :=
      mul_nonneg (chargePower_nonneg ch dtH hm) hdt.le
    unfold chargeDelivered
    nlinarith
  have hneed_eq : energyNeedKwh ch
      = (chargeTarget ch - ch.vehicle.soc_pct) / 100 * capKwh ch := by
    unfold energyNeedKwh
    have : 0 ≤ (chargeTarget ch - ch.vehicle.soc_pct) / 100 * capKwh ch := by
      have : (0:ℚ) ≤ chargeTarget ch - ch.vehicle.soc_pct := by linarith
      positivity
    exact max_eq_right this
  have hsoc_le : clamp (ch.vehicle.soc_pct + chargeDelivered ch dtH / capKwh ch * 100) 0 100
      ≤ chargeTarget ch := by
    have hstep : chargeDelivered ch dtH / capKwh ch * 100
        ≤ chargeTarget ch - ch.vehicle.soc_pct := by
      rw [hneed_eq] at hdel
      have := (div_le_div_iff_of_pos_right hcap).mpr hdel
      rw [mul_div_assoc, div_self hcap.ne'] at this
      calc chargeDelivered ch dtH / capKwh ch * 100
          ≤ (chargeTarget ch - ch.vehicle.soc_pct) / 100 * 100 := by
            have h100 : (0:ℚ) < 100 := by norm_num
            apply mul_le_mul_of_nonneg_right _ h100.le
            simpa [mul_one] using this
        _ = chargeTarget ch - ch.vehicle.soc_pct := by ring
    unfold clamp
    calc min 100 (max 0 (ch.vehicle.soc_pct + chargeDelivered ch dtH / capKwh ch * 100))
        ≤ max 0 (ch.vehicle.soc_pct + chargeDelivered ch dtH / capKwh ch * 100) :=
          min_le_right _ _
      _ ≤ max 0 (chargeTarget ch) := by
          apply max_le_max le_rfl
          linarith
      _ = chargeTarget ch := max_eq_right htgt
  refine ⟨hbranch, hbound, rfl, ?_, ?_, ?_, ?_⟩
  · rw [hbranch]; rfl
  · rw [hbranch]; rfl
  · rw [hbranch]
    exact hsoc_le
  · intro ht
    rw [hbranch]
    have : chargeTarget ch ≤ ch.vehicle.target_soc_pct := by
      unfold chargeTarget clamp
      calc min 100 (max 0 ch.vehicle.target_soc_pct) ≤ max 0 ch.vehicle.target_soc_pct :=
            min_le_right _ _
        _ = ch.vehicle.target_soc_pct := max_eq_right ht
    exact le_trans hsoc_le this

/-- Closed witness for `spec_C3`: a plugged, enabled charge point at 50 % SoC
with a 100 % target never exceeds the target within one tick. -/
theorem spec_C3_witness :
    (evcsStep
      ⟨"c01", "ac", 22, ⟨false, false, false⟩, ⟨true, 7, true, 5⟩,
        ⟨"car", 50, 60, 11, 100, "06:15", none⟩, ⟨"Charging", 0, 0⟩⟩
      (1/3600)).vehicle.soc_pct
      ≤ chargeTarget
        ⟨"c01", "ac", 22, ⟨false, false, false⟩, ⟨true, 7, true, 5⟩,
          ⟨"car", 50, 60, 11, 100, "06:15", none⟩, ⟨"Charging", 0, 0⟩⟩ :=
  (spec_C3
    ⟨"c01", "ac", 22, ⟨false, false, false⟩, ⟨true, 7, true, 5⟩,
      ⟨"car", 50, 60, 11, 100, "06:15", none⟩, ⟨"Charging", 0, 0⟩⟩
    (1/3600) rfl rfl rfl rfl rfl
    (by unfold chargeTarget clamp; norm_num)
    (by norm_num) (by norm_num)).2.2.2.2.2.1

/-! ### Storage (storage part of `_tick`, src/main.js lines 2929-2946) -/

/-- Shared `ctrl` shape for storage and the flexible devices:
`enabled` + `power_set_kw`. -/
structure Ctrl where
  enabled : Bool
  power_set_kw : ℚ
deriving DecidableEq, Repr

/-- The storage part of the plant model. -/
structure Storage where
  capacity_kwh : ℚ
  max_charge_kw : ℚ
  max_discharge_kw : ℚ
  soc_pct : ℚ
  power_kw : ℚ
  ctrl : Ctrl
deriving DecidableEq, Repr

/-- Source `storagePower = clamp(req, -maxCh, maxDis)` (positive = discharge). -/
def storageRequested (st : Storage) : ℚ :=
  clamp st.ctrl.power_set_kw (-st.max_charge_kw) st.max_discharge_kw

/-- The signed storage power after the SoC boundary checks:
`if (soc ≤ 0 && p > 0) p = 0; if (soc ≥ 100 && p < 0) p = 0`. -/
def storagePowerOut (st : Storage) : ℚ :=
  if st.ctrl.enabled then
    if st.soc_pct ≤ 0 ∧ 0 < storageRequested st then 0
    else if 100 ≤ st.soc_pct ∧ storageRequested st < 0 then 0
    else storageRequested st
  else 0

/-- The storage step of `_tick`: compute the power, integrate the SoC
(`deltaSoc = (-storagePower * dtH / cap) * 100` with
`cap = Math.max(1e-6, capacity_kwh)`, clamped to `[0, 100]`) and store the
power in `power_kw`. SoC is only integrated when the control is enabled. -/
def storageStep (st : Storage) (dtH : ℚ) : Storage :=
  if st.ctrl.enabled then
    { st with
      soc_pct := clamp
        (st.soc_pct + -storagePowerOut st * dtH / max (1/1000000) st.capacity_kwh * 100)
        0 100,
      power_kw := storagePowerOut st }
  else { st with power_kw := 0 }

/-- C4 — With storage control enabled, the requested signed power (positive
= discharge) is clamped to `[-max_charge_kw, max_discharge_kw]`, forced to 0
when discharge is requested at `soc ≤ 0` or charge is requested at
`soc ≥ 100`, and the SoC is integrated by
`Δsoc% = -power * dtH / capacity * 100` (then clamped into `[0, 100]`).
In particular at `soc_pct = 0` a discharge request yields `power_kw = 0`,
while a charge request is permitted and increases the SoC. -/
theorem spec_C4 (st : Storage) (dtH : ℚ)
    (hen : st.ctrl.enabled = true)
    (hmc : 0 ≤ st.max_charge_kw) (hmd : 0 ≤ st.max_discharge_kw)
    (hcap : 1/1000000 ≤ st.capacity_kwh) :
    (-st.max_charge_kw ≤ (storageStep st dtH).power_kw
      ∧ (storageStep st dtH).power_kw ≤ st.max_discharge_kw)
    ∧ (st.soc_pct ≤ 0 → 0 < st.ctrl.power_set_kw →
        (storageStep st dtH).power_kw = 0)
    ∧ (100 ≤ st.soc_pct → st.ctrl.power_set_kw < 0 →
        (storageStep st dtH).power_kw = 0)
    ∧ (storageStep st dtH).soc_pct
        = clamp (st.soc_pct + -(storageStep st dtH).power_kw * dtH / st.capacity_kwh * 100)
            0 100
    ∧ (st.soc_pct = 0 → st.ctrl.power_set_kw < 0 → 0 < st.max_charge_kw → 0 < dtH →
        (storageStep st dtH).power_kw < 0
          ∧ st.soc_pct < (storageStep st dtH).soc_pct) := by
  have hpow : (storageStep st dtH).power_kw = storagePowerOut st := by
    unfold storageStep
    rw [if_pos hen]
  have hreq_lb : -st.max_charge_kw ≤ storageRequested st := by
    unfold storageRequested clamp
    have h1 : -st.max_charge_kw ≤ st.max_discharge_kw := by linarith
    exact le_min h1 (le_max_left _ _)
  have hreq_ub : storageRequested st ≤ st.max_discharge_kw := min_le_left _ _
  have hbounds : -st.max_charge_kw ≤ storagePowerOut st
      ∧ storagePowerOut st ≤ st.max_discharge_kw := by
    unfold storagePowerOut
    rw [if_pos hen]
    split
    · constructor <;> linarith
    split
    · constructor <;> linarith
    · exact ⟨hreq_lb, hreq_ub⟩
  have hcapmax : max (1/1000000 : ℚ) st.capacity_kwh = st.capacity_kwh :=
    max_eq_right hcap
  refine ⟨⟨hpow ▸ hbounds.1, hpow ▸ hbounds.2⟩, ?_, ?_, ?_, ?_⟩
  · intro hsoc hset
    rw [hpow]
    unfold storagePowerOut
    rw [if_pos hen]
    have hreqpos : 0 ≤ storageRequested st := by
      unfold storageRequested clamp
      exact le_min hmd (le_trans hset.le (le_max_right _ _))
    rcases lt_or_eq_of_le hreqpos with h | h
    · rw [if_pos ⟨hsoc, h⟩]
    · rw [← h]
      split
      · rfl
      split
      · rfl
      · rfl
  · intro hsoc hset
    rw [hpow]
    unfold storagePowerOut
    rw [if_pos hen]
    have hreqneg : storageRequested st ≤ 0 := by
      unfold storageRequested clamp
      have : max (-st.max_charge_kw) st.ctrl.power_set_kw
          = if st.ctrl.power_set_kw ≤ -st.max_charge_kw
            then -st.max_charge_kw else st.ctrl.power_set_kw := by
        split <;> [exact max_eq_left (by assumption); exact max_eq_right (le_of_not_le (by assumption))]
      rcases le_or_lt (max (-st.max_charge_kw) st.ctrl.power_set_kw) 0 with h | h
      · exact le_trans (min_le_right _ _) h
      · exfalso
        rcases max_cases (-st.max_charge_kw) st.ctrl.power_set_kw with ⟨he, _⟩ | ⟨he, _⟩ <;>
          rw [he] at h <;> linarith
    rcases lt_or_eq_of_le hreqneg with h | h
    · split
      · rfl
      rw [if_pos ⟨hsoc, h⟩]
    · rw [h]
      split
      · rfl
      split
      · rfl
      · rfl
  · rw [hpow]
    unfold storageStep
    rw [if_pos hen, hcapmax]
  · intro hsoc0 hset hmcpos hdt
    have hreqlt : storageRequested st < 0 := by
      unfold storageRequested clamp
      rcases max_cases (-st.max_charge_kw) st.ctrl.power_set_kw with ⟨he, _⟩ | ⟨he, _⟩
      · rw [he]; exact min_lt_iff.mpr (Or.inr (by linarith))
      · rw [he]; exact min_lt_iff.mpr (Or.inr hset)
    have hout : storagePowerOut st = storageRequested st := by
      unfold storagePowerOut
      rw [if_pos hen]
      rw [if_neg (by rintro ⟨_, h⟩; linarith), if_neg (by rintro ⟨h, _⟩; linarith)]
    constructor
    · rw [hpow, hout]; exact hreqlt
    · have hcappos : (0:ℚ) < st.capacity_kwh := lt_of_lt_of_le (by norm_num) hcap
      have hdelta : 0 < -storagePowerOut st * dtH / max (1/1000000) st.capacity_kwh * 100 := by
        rw [hout, hcapmax]
        have : 0 < -storageRequested st := by linarith
        positivity
      unfold storageStep
      rw [if_pos hen]
      show st.soc_pct < clamp _ 0 100
      unfold clamp
      rw [hsoc0, zero_add]
      exact lt_min (by norm_num) (lt_max_of_lt_right hdelta)

/-- Closed witness for `spec_C4`: an empty battery (SoC 0) given a charge
request of −50 kW ends up charging (negative power) with increasing SoC. -/
theorem spec_C4_witness :
    (storageStep ⟨200, 200, 200, 0, 0, ⟨true, -50⟩⟩ (1/3600)).power_kw < 0
      ∧ (0:ℚ) < (storageStep ⟨200, 200, 200, 0, 0, ⟨true, -50⟩⟩ (1/3600)).soc_pct :=
  (spec_C4 ⟨200, 200, 200, 0, 0, ⟨true, -50⟩⟩ (1/3600) rfl (by norm_num) (by norm_num)
      (by norm_num)).2.2.2.2 rfl (by norm_num) (by norm_num) (by norm_num)

/-! ### Grid balance (end of `_tick`, src/main.js lines 3038-3048) -/

/-- Source `gridPower = baseLoad + heatpump + Σ EV − PV − CHP − generator − storage`
(positive = import, negative = export). -/
def gridPowerRaw (baseLoad heatpump evTotal pv chp gen storagePower : ℚ) : ℚ :=
  baseLoad + heatpump + evTotal - pv - chp - gen - storagePower

/-- The grid part of `_tick`: the computed power is forced to 0 when the
grid is unavailable, and `over_limit = available && gridPower > limit + 1e-6`. -/
def gridStep (available : Bool)
    (baseLoad heatpump evTotal pv chp gen storagePower limit : ℚ) : ℚ × Bool :=
  let gp := if available then gridPowerRaw baseLoad heatpump evTotal pv chp gen storagePower
    else 0
  (gp, available && decide (limit + 1/1000000 < gp))

/-- C5 — When the grid is unavailable, the published grid power is 0 and
`over_limit` is false, whatever the rest of the plant does; when it is
available, `over_limit` holds exactly when the computed grid power exceeds
`limit_kw + 1e-6`. -/
theorem spec_C5 (baseLoad heatpump evTotal pv chp gen storagePower limit : ℚ) :
    (gridStep false baseLoad heatpump evTotal pv chp gen storagePower limit).1 = 0
    ∧ (gridStep false baseLoad heatpump evTotal pv chp gen storagePower limit).2 = false
    ∧ (gridStep true baseLoad heatpump evTotal pv chp gen storagePower limit).1
        = gridPowerRaw baseLoad heatpump evTotal pv chp gen storagePower
    ∧ ((gridStep true baseLoad heatpump evTotal pv chp gen storagePower limit).2 = true
        ↔ limit + 1/1000000
            < gridPowerRaw baseLoad heatpump evTotal pv chp gen storagePower) := by
  refine ⟨rfl, rfl, rfl, ?_⟩
  simp [gridStep]

/-! ### Scenario lifecycle (`_applyScenario`, `_runScenarioTimeline`,
`_handleScenarioFinished`, src/main.js lines 917-1121, 1206-1245, 2168-2568)

The `this._scenario` run-state record.  The per-scenario `data` working set
and the ISO `last_applied` string are presentation-only and not modelled;
the per-scenario model mutations of the timeline switch are modelled only
through the `timelineDone` parameter (whether the scenario's own timeline
has declared `phase = 'done'` at a given elapsed time) plus the concrete
`grid_limit_drop_timeline` case below. -/

structure Scenario where
  selected : String
  active : String
  running : Bool
  started_ms : ℚ
  duration_s : ℚ
  ends_ms : ℚ
  phase : String
  status : String
  justFinished : Bool
  justFinishedId : String
  justFinishedReason : String
  reset_pending : Bool
  reset_at_ms : ℚ
deriving DecidableEq, Repr

/-- Source `_applyScenario(scenarioId, {start})`: reset all run state, apply the
scenario setup (plant-model mutation, out of scope here), then either start
the run (`start && id !== 'baseline'`) with the configured duration
(`clamp(cfg.scenarioDurationSec, 30, 86400)`) or leave it merely applied. -/
def applyScenario (_s : Scenario) (id : String) (start : Bool)
    (nowMs cfgDurationSec : ℚ) : Scenario :=
  if start && (id != "baseline") then
    { selected := id, active := id, running := true, started_ms := nowMs,
      duration_s := clamp cfgDurationSec 30 86400,
      ends_ms := nowMs + clamp cfgDurationSec 30 86400 * 1000,
      phase := "running", status := "running " ++ id,
      justFinished := false, justFinishedId := "", justFinishedReason := "",
      reset_pending := false, reset_at_ms := 0 }
  else
    { selected := id, active := id, running := false, started_ms := 0,
      duration_s := 0, ends_ms := 0, phase := "applied",
      status := "applied " ++ id,
      justFinished := false, justFinishedId := "", justFinishedReason := "",
      reset_pending := false, reset_at_ms := 0 }

/-- Source `const elapsed = (nowMs - this._scenario.started_ms) / 1000`. -/
def scenarioElapsed (s : Scenario) (nowMs : ℚ) : ℚ := (nowMs - s.started_ms) / 1000

/-- Source `_runScenarioTimeline(nowMs, ...)`: no-op unless running with a start
timestamp; otherwise run the per-scenario timeline (`timelineDone` says
whether it has reached its natural end), hold the last state
("stabilisiert") when the timeline ends before the configured duration, and
force the scenario `done` with a one-shot `justFinished` once
`elapsed >= duration_s` (for `duration_s > 0`).  The branch order here
flattens the source's phase-then-override sequence into the equivalent
first-match chain. -/
def runScenarioTimeline (timelineDone : String → ℚ → Bool) (s : Scenario)
    (nowMs : ℚ) : Scenario :=
  if s.running = false then s
  else if s.started_ms = 0 then s
  else if 0 < s.duration_s ∧ s.duration_s ≤ scenarioElapsed s nowMs then
    { s with
      running := false, started_ms := 0, ends_ms := 0, phase := "done",
      status := "done " ++ s.active, justFinished := true,
      justFinishedId := s.active, justFinishedReason := "timeout" }
  else if timelineDone s.active (scenarioElapsed s nowMs)
      ∧ 0 < s.duration_s ∧ scenarioElapsed s nowMs < s.duration_s then
    { s with
      phase := "running",
      status := "running " ++ s.active ++ " (stabilisiert)" }
  else if timelineDone s.active (scenarioElapsed s nowMs) then
    { s with phase := "done", status := "running " ++ s.active }
  else
    { s with phase := "running", status := "running " ++ s.active }

/-- Source `_handleScenarioFinished(nowMs)`, non-suite path: no-op unless
`justFinished` is set; otherwise build the report (the `Bool` result below:
the finish signal was consumed), optionally schedule the auto-reset, and
clear the one-shot flags. -/
def handleScenarioFinished (s : Scenario) (autoReset : Bool)
    (pauseSec nowMs : ℚ) : Scenario × Bool :=
  if s.justFinished = false then (s, false)
  else if autoReset then
    ({ s with
       reset_pending := true, reset_at_ms := nowMs + pauseSec * 1000,
       status := "done "
         ++ (if s.justFinishedId = "" then s.active else s.justFinishedId),
       justFinished := false, justFinishedId := "", justFinishedReason := "" },
     true)
  else
    ({ s with
       justFinished := false, justFinishedId := "",
       justFinishedReason := "" }, true)

/-- The model mutation of the `grid_limit_drop_timeline` case of the
timeline switch: the grid limit written at a given elapsed time (`none`
after the natural end of the timeline - the last state is held). -/
def gridLimitDropLimit (elapsed : ℚ) : Option ℚ :=
  if elapsed < 60 then some 80
  else if elapsed < 180 then some 25
  else if elapsed < 240 then some 80
  else none

/-- The `phase = 'done'` outcome of the `grid_limit_drop_timeline` case. -/
def gridLimitDropDone (elapsed : ℚ) : Bool := decide (240 ≤ elapsed)

/-- C6 — `apply(id, start:false)` leaves `phase = "applied"`,
`running = false`; `apply(id ≠ baseline, start:true)` sets `running = true`
with the configured duration; once `elapsed ≥ duration_s` the timeline step
flips `running` to `false`, sets `phase = "done"` and raises `justFinished`,
which the finish handler consumes exactly once; and a timeline that finishes
early (e.g. `grid_limit_drop_timeline` past 240 s) stops mutating the model
and is held in `phase = "running"` until the configured duration elapses. -/
theorem spec_C6 (s : Scenario) (id : String) (nowMs cfgDur : ℚ) :
    ((applyScenario s id false nowMs cfgDur).phase = "applied"
      ∧ (applyScenario s id false nowMs cfgDur).running = false)
    ∧ (id ≠ "baseline" →
        (applyScenario s id true nowMs cfgDur).running = true
        ∧ (applyScenario s id true nowMs cfgDur).duration_s = clamp cfgDur 30 86400
        ∧ (30 ≤ cfgDur → cfgDur ≤ 86400 →
            (applyScenario s id true nowMs cfgDur).duration_s = cfgDur))
    ∧ (∀ (td : String → ℚ → Bool) (t : ℚ),
        s.running = true → s.started_ms ≠ 0 → 0 < s.duration_s →
        s.duration_s ≤ scenarioElapsed s t →
          (runScenarioTimeline td s t).running = false
          ∧ (runScenarioTimeline td s t).phase = "done"
          ∧ (runScenarioTimeline td s t).justFinished = true)
    ∧ (∀ (ar : Bool) (ps t : ℚ), s.justFinished = true →
        (handleScenarioFinished s ar ps t).2 = true
        ∧ (handleScenarioFinished s ar ps t).1.justFinished = false
        ∧ (handleScenarioFinished (handleScenarioFinished s ar ps t).1 ar ps t).2
            = false)
    ∧ (∀ (td : String → ℚ → Bool) (t : ℚ),
        s.running = true → s.started_ms ≠ 0 →
        td s.active (scenarioElapsed s t) = true →
        0 < s.duration_s → scenarioElapsed s t < s.duration_s →
          (runScenarioTimeline td s t).running = true
          ∧ (runScenarioTimeline td s t).phase = "running"
          ∧ (runScenarioTimeline td s t).status
              = "running " ++ s.active ++ " (stabilisiert)")
    ∧ (∀ e : ℚ, (gridLimitDropDone e = true ↔ 240 ≤ e)
        ∧ (240 ≤ e → gridLimitDropLimit e = none)) := by
  refine ⟨⟨rfl, rfl⟩, ?_, ?_, ?_, ?_, ?_⟩
  · intro hid
    have hbne : (id != "baseline") = true := bne_iff_ne.mpr hid
    have hcond : (true && (id != "baseline")) = true := by simp [hbne]
    unfold applyScenario
    rw [if_pos hcond]
    refine ⟨rfl, rfl, fun h30 h84 => ?_⟩
    show clamp cfgDur 30 86400 = cfgDur
    unfold clamp
    rw [max_eq_right h30, min_eq_right h84]
  · intro td t hrun hstart hdur hel
    have h1 : ¬(s.running = false) := by simp [hrun]
    unfold runScenarioTimeline
    rw [if_neg h1, if_neg hstart, if_pos ⟨hdur, hel⟩]
    exact ⟨rfl, rfl, rfl⟩
  · intro ar ps t hjf
    have h1 : ¬(s.justFinished = false) := by simp [hjf]
    cases ar <;> simp [handleScenarioFinished, h1]
  · intro td t hrun hstart htd hdur hel
    have h1 : ¬(s.running = false) := by simp [hrun]
    have hnotend : ¬(0 < s.duration_s ∧ s.duration_s ≤ scenarioElapsed s t) :=
      fun h => absurd hel (not_lt.mpr h.2)
    unfold runScenarioTimeline
    rw [if_neg h1, if_neg hstart, if_neg hnotend, if_pos ⟨htd, hdur, hel⟩]
    exact ⟨hrun, rfl, rfl⟩
  · intro e
    constructor
    · unfold gridLimitDropDone
      exact decide_eq_true_iff
    · intro he
      unfold gridLimitDropLimit
      rw [if_neg (by linarith), if_neg (by linarith), if_neg (by linarith)]

/-- Closed witness for `spec_C6`: a running scenario whose configured 300 s
have elapsed is marked done with the finish signal raised. -/
theorem spec_C6_witness :
    (runScenarioTimeline (fun _ _ => false)
      ⟨"grid_limit_drop_timeline", "grid_limit_drop_timeline", true, 1000, 300,
        301000, "running", "running grid_limit_drop_timeline", false, "", "",
        false, 0⟩ 301000).running = false
    ∧ (runScenarioTimeline (fun _ _ => false)
      ⟨"grid_limit_drop_timeline", "grid_limit_drop_timeline", true, 1000, 300,
        301000, "running", "running grid_limit_drop_timeline", false, "", "",
        false, 0⟩ 301000).phase = "done"
    ∧ (runScenarioTimeline (fun _ _ => false)
      ⟨"grid_limit_drop_timeline", "grid_limit_drop_timeline", true, 1000, 300,
        301000, "running", "running grid_limit_drop_timeline", false, "", "",
        false, 0⟩ 301000).justFinished = true :=
  (spec_C6
    ⟨"grid_limit_drop_timeline", "grid_limit_drop_timeline", true, 1000, 300,
      301000, "running", "running grid_limit_drop_timeline", false, "", "",
      false, 0⟩ "x" 0 300).2.2.1 (fun _ _ => false) 301000 rfl (by norm_num)
    (by norm_num) (by unfold scenarioElapsed; norm_num)

/-! ### ChangePublisher (`_setChanged`, src/main.js lines 3170-3189) -/

/-- A JavaScript value as it reaches `_setChanged` (or sits in the cache);
`undef` is the `undefined` returned by a cache miss. -/
inductive JVal where
  | num (q : ℚ)
  | nanv
  | str (s : String)
  | boolv (b : Bool)
  | nullv
  | undef
deriving DecidableEq, Repr

/-- Source `const normalized = (typeof val === 'number' && Number.isNaN(val)) ? null : val`. -/
def normalizeVal : JVal → JVal
  | .nanv => .nullv
  | v => v

/-- Source `typeof v === 'number'` (NaN is a JS number). -/
def isNumType : JVal → Bool
  | .num _ => true
  | .nanv => true
  | _ => false

/-- The numeric branch `Math.abs(normalized - prev) > 1e-6`; any comparison
involving NaN is false in JS. -/
def numChanged : JVal → JVal → Bool
  | .num a, .num b => decide (1/1000000 < |a - b|)
  | _, _ => false

/-- JS strict inequality `normalized !== prev` (NaN is unequal to
everything, including itself; all other values compare structurally). -/
def strictNe (a b : JVal) : Bool :=
  if a = .nanv ∨ b = .nanv then true else a != b

/-- The `changed` flag of `_setChanged`: numbers compare with the epsilon,
everything else strictly. -/
def changeDetected (prev v : JVal) : Bool :=
  if isNumType (normalizeVal v) && isNumType prev
    then numChanged (normalizeVal v) prev
    else strictNe (normalizeVal v) prev

/-- One `_setChanged` call against the cached value: returns whether the
value is emitted and the new cached value (the cache is updated only on a
detected change). -/
def setChangedStep (prev : JVal) (v : JVal) : Bool × JVal :=
  if changeDetected prev v then (true, normalizeVal v) else (false, prev)

/-- Number of emissions over a sequence of candidate values for one logical
point id, starting from cache state `cache`. -/
def publishCount (cache : JVal) : List JVal → ℕ
  | [] => 0
  | v :: vs =>
    (if (setChangedStep cache v).1 then 1 else 0)
      + publishCount (setChangedStep cache v).2 vs

/-- C7 — A candidate value is emitted (and the cache updated) only when it
differs from the cached value: NaN is first normalized to the null
sentinel, two numbers are compared with absolute epsilon `1e-6`, everything
else with strict equality.  Consequently two consecutive numeric values
within `1e-6` of each other produce a single emission from a fresh cache,
and a numeric change greater than `1e-6` always emits. -/
theorem spec_C7 (prev v : JVal) (a b p q : ℚ) :
    ((setChangedStep prev v).2
        = (if (setChangedStep prev v).1 then normalizeVal v else prev))
    ∧ setChangedStep prev .nanv = setChangedStep prev .nullv
    ∧ ((isNumType (normalizeVal v) && isNumType prev) = false →
        (setChangedStep prev v).1 = strictNe (normalizeVal v) prev)
    ∧ (|a - b| ≤ 1/1000000 → publishCount .undef [.num a, .num b] = 1)
    ∧ (1/1000000 < |p - q| → (setChangedStep (.num p) (.num q)).1 = true)
    ∧ (|p - q| ≤ 1/1000000 → (setChangedStep (.num p) (.num q)).1 = false) := by
  refine ⟨?_, rfl, ?_, ?_, ?_, ?_⟩
  · unfold setChangedStep
    split <;> rfl
  · intro h
    unfold setChangedStep changeDetected
    rw [h]
    cases hs : strictNe (normalizeVal v) prev <;> simp [hs]
  · intro h
    have hno : ¬(1/1000000 < |b - a|) := by
      rw [abs_sub_comm]
      exact not_lt.mpr h
    have h1 : numChanged (JVal.num b) (JVal.num a) = false := by
      unfold numChanged
      exact decide_eq_false hno
    have h2 : strictNe (JVal.num a) JVal.undef = true := rfl
    have hstep1 : setChangedStep JVal.undef (JVal.num a) = (true, JVal.num a) := by
      simp [setChangedStep, changeDetected, normalizeVal, isNumType, h2]
    have hstep2 : setChangedStep (JVal.num a) (JVal.num b) = (false, JVal.num a) := by
      simp [setChangedStep, changeDetected, normalizeVal, isNumType, h1]
    simp [publishCount, hstep1, hstep2]
  · intro h
    have hc : numChanged (JVal.num q) (JVal.num p) = true := by
      unfold numChanged
      exact decide_eq_true (by rwa [abs_sub_comm])
    simp [setChangedStep, changeDetected, normalizeVal, isNumType, hc]
  · intro h
    have hc : numChanged (JVal.num q) (JVal.num p) = false := by
      unfold numChanged
      exact decide_eq_false (by rw [abs_sub_comm]; exact not_lt.mpr h)
    simp [setChangedStep, changeDetected, normalizeVal, isNumType, hc]

/-- Closed witness for `spec_C7`: writing `3` then `3 + 1e-7` to a fresh
point emits exactly once. -/
theorem spec_C7_witness :
    publishCount JVal.undef [JVal.num 3, JVal.num (3 + 1/10000000)] = 1 :=
  (spec_C7 JVal.undef JVal.undef 3 (3 + 1/10000000) 0 0).2.2.2.1
    (by rw [abs_le]; norm_num)

/-! ### Scenario catalog and suite runner (`_scenarioDefinitions`,
`_startSuiteAll`, `_suiteTick`, `_handleScenarioFinished` suite branch,
src/main.js lines 481-727, 1267-1396) -/

/-- One catalog entry (`{id, title, kind, duration_s, description}`; the
title/description strings are presentation-only and omitted, and entries
without a `duration_s` field get 0 like the suite entries). -/
structure ScenarioDef where
  id : String
  kind : String
  duration_s : ℚ
deriving DecidableEq, Repr

/-- The scenario catalog returned by `_scenarioDefinitions()`, in source
order. -/
def scenarioDefinitions : List ScenarioDef :=
  [⟨"suite_all_scenarios_5min", "suite", 0⟩,
   ⟨"suite_stop", "suite", 0⟩,
   ⟨"suite_smoke_all", "timeline", 420⟩,
   ⟨"suite_full_all", "timeline", 1800⟩,
   ⟨"baseline", "oneshot", 0⟩,
   ⟨"lm_6cars_deadline_0615", "oneshot", 0⟩,
   ⟨"lm_20mix_deadline_0615", "oneshot", 0⟩,
   ⟨"lm_50ports_deadline_0615", "oneshot", 0⟩,
   ⟨"lm_priorities_3tiers", "oneshot", 0⟩,
   ⟨"lm_arrival_wave_timeline", "timeline", 600⟩,
   ⟨"lm_departure_wave_timeline", "timeline", 600⟩,
   ⟨"pv_surplus_30cars", "oneshot", 0⟩,
   ⟨"pv_cloud_ramp_timeline", "timeline", 600⟩,
   ⟨"storage_soc0", "oneshot", 0⟩,
   ⟨"storage_soc100", "oneshot", 0⟩,
   ⟨"storage_power_limit_low", "oneshot", 0⟩,
   ⟨"tariff_flat_low_10ct", "oneshot", 0⟩,
   ⟨"tariff_pulse_timeline", "timeline", 180⟩,
   ⟨"tariff_extremes_timeline", "timeline", 300⟩,
   ⟨"grid_limit_drop_timeline", "timeline", 240⟩,
   ⟨"grid_14a_limit_timeline", "timeline", 600⟩,
   ⟨"base_load_spike_timeline", "timeline", 300⟩,
   ⟨"grid_blackout_60s_timeline", "timeline", 150⟩,
   ⟨"dc_rush_10", "oneshot", 0⟩,
   ⟨"dc_taper_single_400", "oneshot", 0⟩,
   ⟨"dc_all_ports_stress", "oneshot", 0⟩,
   ⟨"faults_evcs_faulted_5", "oneshot", 0⟩,
   ⟨"faults_evcs_unavailable_5", "oneshot", 0⟩,
   ⟨"faults_evcs_meter_freeze_3", "oneshot", 0⟩,
   ⟨"faults_clear_all", "oneshot", 0⟩,
   ⟨"fuzz_10min_medium", "timeline", 600⟩,
   ⟨"fuzz_30min_heavy", "timeline", 1800⟩,
   ⟨"ext_heatpump_30kw", "oneshot", 0⟩,
   ⟨"ext_chp_80kw", "oneshot", 0⟩,
   ⟨"ext_generator_200kw", "oneshot", 0⟩]

/-- JS `String(id).startsWith('suite_')`, computed on the character list. -/
def idStartsWithSuite (id : String) : Bool :=
  List.isPrefixOf "suite_".toList id.toList

/-- The suite queue built by `_startSuiteAll`:
`defs.filter(d => d.id !== 'baseline' && d.kind !== 'suite' &&
!String(d.id).startsWith('suite_')).map(d => d.id)`. -/
def suiteQueue : List String :=
  (scenarioDefinitions.filter (fun d =>
    (d.id != "baseline") && (d.kind != "suite")
      && !(idStartsWithSuite d.id))).map (fun d => d.id)

/-- Modelled from the spec: the queue as the spec sentence describes it -
"catalog entries excluding `baseline` and suite-kind entries" - i.e. only
the `kind = "suite"` entries and the baseline entry are excluded. -/
def suiteQueueSpec : List String :=
  (scenarioDefinitions.filter (fun d =>
    (d.id != "baseline") && (d.kind != "suite"))).map (fun d => d.id)

/-- The `this._suite` run-state record (`results` kept as a count). -/
structure Suite where
  running : Bool
  suiteId : String
  queue : List String
  index : Int
  currentId : String
  stage : String
  started_ms : ℚ
  pause_end_ms : ℚ
  resultsCount : ℕ
deriving DecidableEq, Repr

/-- Source `_startSuiteAll()`: fresh suite state in stage `pause` with the filtered
queue. -/
def startSuiteAll (nowMs pauseSec : ℚ) : Suite :=
  { running := true, suiteId := "suite_all_scenarios_5min", queue := suiteQueue,
    index := -1, currentId := "", stage := "pause", started_ms := nowMs,
    pause_end_ms := nowMs + pauseSec * 1000, resultsCount := 0 }

/-- Source `_suiteTick(nowMs)`: in stage `pause`, once the pause deadline passed,
either finish the suite (queue exhausted) or start the next queued scenario
(returned as the second component, delegated to `_applyScenario` with
`start = true`); in stage `scenario` it waits for the finish handler. -/
def suiteTick (su : Suite) (nowMs : ℚ) : Suite × Option String :=
  if su.running = false then (su, none)
  else if su.stage = "pause" then
    if nowMs < su.pause_end_ms then (su, none)
    else if (su.queue.length : Int) ≤ su.index + 1 then
      ({ su with running := false, stage := "done" }, none)
    else
      ({ su with
         index := su.index + 1,
         currentId := su.queue.getD (su.index + 1).toNat "",
         stage := "scenario" },
       some (su.queue.getD (su.index + 1).toNat ""))
  else (su, none)

/-- The suite branch of `_handleScenarioFinished`: when the running suite's
current scenario finishes, snapshot the report and re-enter `pause`. -/
def suiteOnScenarioFinished (su : Suite) (finishedId : String)
    (nowMs pauseSec : ℚ) : Suite :=
  if su.running = true ∧ su.stage = "scenario" ∧ su.currentId = finishedId then
    { su with
      resultsCount := su.resultsCount + 1, stage := "pause", currentId := "",
      pause_end_ms := nowMs + pauseSec * 1000 }
  else su

/-- C8, counterexample — the claim's queue ("catalog entries excluding the
baseline entry and the suite-kind entries") differs from the queue the code
builds: `suite_smoke_all` has `kind = "timeline"`, so the claim keeps it,
but the code's extra `!id.startsWith('suite_')` filter drops it. -/
theorem spec_C8_counterexample :
    "suite_smoke_all" ∈ suiteQueueSpec
    ∧ "suite_smoke_all" ∉ suiteQueue
    ∧ suiteQueue ≠ suiteQueueSpec := by
  refine ⟨?_, ?_, ?_⟩ <;> decide

/-- C8, amended — the suite queue consists of exactly the catalog entries
excluding the baseline entry, the suite-kind entries, and the entries whose
id starts with `suite_`, in catalog order; and the suite proceeds through
stages pause → scenario → pause → … → done. -/
theorem spec_C8 (nowMs pauseSec : ℚ) :
    suiteQueue
      = ["lm_6cars_deadline_0615", "lm_20mix_deadline_0615",
         "lm_50ports_deadline_0615", "lm_priorities_3tiers",
         "lm_arrival_wave_timeline", "lm_departure_wave_timeline",
         "pv_surplus_30cars", "pv_cloud_ramp_timeline", "storage_soc0",
         "storage_soc100", "storage_power_limit_low", "tariff_flat_low_10ct",
         "tariff_pulse_timeline", "tariff_extremes_timeline",
         "grid_limit_drop_timeline", "grid_14a_limit_timeline",
         "base_load_spike_timeline", "grid_blackout_60s_timeline",
         "dc_rush_10", "dc_taper_single_400", "dc_all_ports_stress",
         "faults_evcs_faulted_5", "faults_evcs_unavailable_5",
         "faults_evcs_meter_freeze_3", "faults_clear_all",
         "fuzz_10min_medium", "fuzz_30min_heavy", "ext_heatpump_30kw",
         "ext_chp_80kw", "ext_generator_200kw"]
    ∧ (startSuiteAll nowMs pauseSec).stage = "pause"
    ∧ (startSuiteAll nowMs pauseSec).queue = suiteQueue
    ∧ (startSuiteAll nowMs pauseSec).running = true
    ∧ (∀ (su : Suite) (t : ℚ), su.running = true → su.stage = "pause" →
        su.pause_end_ms ≤ t → su.index + 1 < (su.queue.length : Int) →
          (suiteTick su t).1.stage = "scenario"
          ∧ (suiteTick su t).1.index = su.index + 1
          ∧ (suiteTick su t).2 = some (su.queue.getD (su.index + 1).toNat ""))
    ∧ (∀ (su : Suite) (t : ℚ), su.running = true → su.stage = "pause" →
        su.pause_end_ms ≤ t → (su.queue.length : Int) ≤ su.index + 1 →
          (suiteTick su t).1.stage = "done"
          ∧ (suiteTick su t).1.running = false
          ∧ (suiteTick su t).2 = none)
    ∧ (∀ (su : Suite) (fid : String) (t p : ℚ), su.running = true →
        su.stage = "scenario" → su.currentId = fid →
          (suiteOnScenarioFinished su fid t p).stage = "pause"
          ∧ (suiteOnScenarioFinished su fid t p).resultsCount
              = su.resultsCount + 1) := by
  refine ⟨by decide, rfl, rfl, rfl, ?_, ?_, ?_⟩
  · intro su t hrun hstage hple hlt
    have h1 : ¬(su.running = false) := by simp [hrun]
    have h2 : ¬(t < su.pause_end_ms) := not_lt.mpr hple
    have h3 : ¬((su.queue.length : Int) ≤ su.index + 1) := not_le.mpr hlt
    unfold suiteTick
    rw [if_neg h1, if_pos hstage, if_neg h2, if_neg h3]
    exact ⟨rfl, rfl, rfl⟩
  · intro su t hrun hstage hple hge
    have h1 : ¬(su.running = false) := by simp [hrun]
    have h2 : ¬(t < su.pause_end_ms) := not_lt.mpr hple
    unfold suiteTick
    rw [if_neg h1, if_pos hstage, if_neg h2, if_pos hge]
    exact ⟨rfl, rfl, rfl⟩
  · intro su fid t p hrun hstage hcur
    unfold suiteOnScenarioFinished
    rw [if_pos ⟨hrun, hstage, hcur⟩]
    exact ⟨rfl, rfl⟩

/-- Closed witness for `spec_C8`: a freshly started suite moves from `pause`
into the first scenario of the queue once the pause deadline passes. -/
theorem spec_C8_witness :
    (suiteTick (startSuiteAll 0 0) 1).1.stage = "scenario"
    ∧ (suiteTick (startSuiteAll 0 0) 1).1.index = (startSuiteAll 0 0).index + 1
    ∧ (suiteTick (startSuiteAll 0 0) 1).2
        = some ((startSuiteAll 0 0).queue.getD
            ((startSuiteAll 0 0).index + 1).toNat "") :=
  (spec_C8 0 0).2.2.2.2.1 (startSuiteAll 0 0) 1 rfl rfl
    (by norm_num [startSuiteAll]) (by decide)

/-! ### Departure-time parsing (`parseDepartureToTimestamp`, src/main.js
lines 56-77) -/

/-- JS whitespace for `.trim()` (the characters that matter here). -/
def isWhitespaceChar (c : Char) : Bool :=
  c == ' ' || c == '\t' || c == '\n' || c == '\r'

/-- Source `departureValue.trim()`, computed on the character list. -/
def jsTrim (s : String) : String :=
  String.mk (((s.toList.dropWhile isWhitespaceChar).reverse.dropWhile
    isWhitespaceChar).reverse)

/-- Source `trimmed.includes('T')`, computed on the character list. -/
def containsChar (s : String) (c : Char) : Bool := s.toList.contains c

/-- Numeric value of a digit character. -/
def digitVal (c : Char) : ℕ := c.toNat - 48

/-- The regex `^(\d{1,2}):(\d{2})$`: one or two digits, a colon, exactly two
digits; returns the two captured numbers. -/
def parseHHMM (s : String) : Option (ℕ × ℕ) :=
  match s.toList with
  | [a, ':', c, d] =>
    if a.isDigit && c.isDigit && d.isDigit
      then some (digitVal a, 10 * digitVal c + digitVal d) else none
  | [a, b, ':', c, d] =>
    if a.isDigit && b.isDigit && c.isDigit && d.isDigit
      then some (10 * digitVal a + digitVal b, 10 * digitVal c + digitVal d)
      else none
  | _ => none

/-- The wall clock at parse time: the epoch milliseconds of the current
day's local midnight, and the milliseconds elapsed since that midnight
(`candidate.setHours(hh, mm, 0, 0)` keeps the date and replaces the time of
day). -/
structure SimNow where
  dayStart : ℚ
  msOfDay : ℚ
deriving DecidableEq, Repr

/-- The candidate timestamp for a parsed `HH:MM` with
`hh = clamp(m[1], 0, 23)` and `mm = clamp(m[2], 0, 59)`. -/
def hhmmCandidate (now : SimNow) (h m : ℕ) : ℚ :=
  now.dayStart + (clamp (h : ℚ) 0 23 * 60 + clamp (m : ℚ) 0 59) * 60000

/-- Source `if (candidate.getTime() <= now.getTime()) candidate.setDate(+1)`:
roll to the next calendar day when the time of day is already past. -/
def rollIfPast (now : SimNow) (c : ℚ) : ℚ :=
  if c ≤ now.dayStart + now.msOfDay then c + 86400000 else c

/-- Source `parseDepartureToTimestamp(departureValue, now)`: non-strings give
`null`; a trimmed string containing `'T'` is tried as a full timestamp
(`new Date(trimmed)` - abstracted as the `isoParse` collaborator); otherwise
the `HH:MM` regex is tried; anything else gives `null`. -/
def parseDepartureToTimestamp (isoParse : String → Option ℚ)
    (departureValue : Option String) (now : SimNow) : Option ℚ :=
  match departureValue with
  | none => none
  | some sv =>
    match (if containsChar (jsTrim sv) 'T' then isoParse (jsTrim sv) else none) with
    | some t => some t
    | none =>
      match parseHHMM (jsTrim sv) with
      | none => none
      | some hm => some (rollIfPast now (hhmmCandidate now hm.1 hm.2))

/-- A charge point with only its `vehicle.departure_ts` replaced. -/
def withDepartureTs (ch : ChargePoint) (ts : Option ℚ) : ChargePoint :=
  { ch with vehicle := { ch.vehicle with departure_ts := ts } }

/-- C9 — Departure-time parsing accepts `"HH:MM"` (rolled to the next
calendar day when that time of day is already past "now") and accepts a
full timestamp string; every unparseable input yields a null deadline; and
the charging step is completely independent of `departure_ts`, so with a
null deadline charging proceeds on the SoC-vs-target check alone. -/
theorem spec_C9 (isoParse : String → Option ℚ) (s : String) (t : ℚ)
    (now : SimNow) (h m : ℕ) (ch : ChargePoint) (dtH : ℚ) (ts : Option ℚ) :
    parseDepartureToTimestamp isoParse none now = none
    ∧ (containsChar (jsTrim s) 'T' = true → isoParse (jsTrim s) = some t →
        parseDepartureToTimestamp isoParse (some s) now = some t)
    ∧ (containsChar (jsTrim s) 'T' = false → parseHHMM (jsTrim s) = some (h, m) →
        parseDepartureToTimestamp isoParse (some s) now
          = some (rollIfPast now (hhmmCandidate now h m)))
    ∧ (now.dayStart + now.msOfDay < hhmmCandidate now h m →
        rollIfPast now (hhmmCandidate now h m) = hhmmCandidate now h m)
    ∧ (hhmmCandidate now h m ≤ now.dayStart + now.msOfDay →
        rollIfPast now (hhmmCandidate now h m) = hhmmCandidate now h m + 86400000)
    ∧ ((containsChar (jsTrim s) 'T' = false ∨ isoParse (jsTrim s) = none) →
        parseHHMM (jsTrim s) = none →
        parseDepartureToTimestamp isoParse (some s) now = none)
    ∧ evcsStep (withDepartureTs ch ts) dtH = withDepartureTs (evcsStep ch dtH) ts := by
  refine ⟨rfl, ?_, ?_, ?_, ?_, ?_, ?_⟩
  · intro hT hiso
    simp [parseDepartureToTimestamp, hT, hiso]
  · intro hT hhmm
    simp [parseDepartureToTimestamp, hT, hhmm]
  · intro hlt
    unfold rollIfPast
    rw [if_neg (not_le.mpr hlt)]
  · intro hle
    unfold rollIfPast
    rw [if_pos hle]
  · intro ho hp
    rcases ho with hT | hiso
    · simp [parseDepartureToTimestamp, hT, hp]
    · cases hT : containsChar (jsTrim s) 'T' <;>
        simp [parseDepartureToTimestamp, hT, hiso, hp]
  · have h1 : (withDepartureTs ch ts).sim = ch.sim := rfl
    have h2 : (withDepartureTs ch ts).ctrl = ch.ctrl := rfl
    have h3 : (withDepartureTs ch ts).vehicle.soc_pct = ch.vehicle.soc_pct := rfl
    have h4 : chargeTarget (withDepartureTs ch ts) = chargeTarget ch := rfl
    have h5 : evcsCharge (withDepartureTs ch ts) dtH
        = withDepartureTs (evcsCharge ch dtH) ts := rfl
    simp only [evcsStep, h1, h2, h3, h4, h5]
    split_ifs <;> rfl

/-- Closed witness for `spec_C9`: parsing `"06:15"` at local midnight gives
the 06:15 candidate of the same day. -/
theorem spec_C9_witness :
    parseDepartureToTimestamp (fun _ => none) (some "06:15") ⟨0, 0⟩
      = some (rollIfPast ⟨0, 0⟩ (hhmmCandidate ⟨0, 0⟩ 6 15)) :=
  (spec_C9 (fun _ => none) "06:15" 0 ⟨0, 0⟩ 6 15
    ⟨"c01", "ac", 22, ⟨false, false, false⟩, ⟨true, 7, true, 5⟩,
      ⟨"car", 50, 60, 11, 100, "06:15", none⟩, ⟨"Charging", 0, 0⟩⟩
    1 none).2.2.1 (by decide) (by decide)

/-! ### Command writes (`_normalizePowerKw`, `_applyWrite`, src/main.js
lines 257-268, 321-476) -/

/-- A JavaScript number as received by `_applyWrite` (IEEE-754 non-finite
values made explicit). -/
inductive JNum where
  | fin (q : ℚ)
  | nan
  | inf
  | ninf
deriving DecidableEq, Repr

/-- Source `clamp(value, min, max)` on a raw JS number: NaN returns `min` directly,
otherwise `Math.min(max, Math.max(min, v))`. -/
def jsNumClamp (v : JNum) (lo hi : ℚ) : ℚ :=
  match v with
  | .fin q => min hi (max lo q)
  | .nan => lo
  | .inf => hi
  | .ninf => min hi lo

/-- Source `_normalizePowerKw(value)`: non-finite inputs become 0, every other
value is interpreted as Watts and divided by 1000. -/
def normalizePowerKw : JNum → ℚ
  | .fin q => q / 1000
  | _ => 0

/-- Source `this._model.grid`. -/
structure Grid where
  available : Bool
  limit_kw : ℚ
  base_load_kw : ℚ
  power_kw : ℚ
  over_limit : Bool
deriving DecidableEq, Repr

/-- Source `this._model.tariff` (forward-curve JSON omitted). -/
structure Tariff where
  mode : String
  price_ct_per_kwh : ℚ
deriving DecidableEq, Repr

/-- Source `this._model.pv.override`. -/
structure PvOverride where
  enabled : Bool
  power_kw : ℚ
deriving DecidableEq, Repr

/-- Source `this._model.pv`. -/
structure Pv where
  installed_kwp : ℚ
  weather_factor : ℚ
  power_kw : ℚ
  override : PvOverride
deriving DecidableEq, Repr

/-- A flexible device (heatpump / CHP / generator). -/
structure Device where
  power_kw : ℚ
  ctrl : Ctrl
deriving DecidableEq, Repr

/-- The plant model (`this._model`), restricted to the parts `_applyWrite`
touches. -/
structure PlantModel where
  grid : Grid
  tariff : Tariff
  pv : Pv
  storage : Storage
  heatpump : Device
  chp : Device
  generator : Device
  evcs : List ChargePoint
deriving DecidableEq, Repr

/-- The regex `^evcs\.(c\d{2})\.(.+)$` of `_applyWrite`: charger id and
remaining tail. -/
def splitEvcsId (relId : String) : Option (String × String) :=
  match relId.toList with
  | 'e' :: 'v' :: 'c' :: 's' :: '.' :: 'c' :: d1 :: d2 :: '.' :: rest =>
    if d1.isDigit && d2.isDigit && !rest.isEmpty then
      some (String.mk ['c', d1, d2], String.mk rest)
    else none
  | _ => none

/-- Source `this._model.evcs.chargers.find(c => c.id === cid)`. -/
def findCharger : List ChargePoint → String → Option ChargePoint
  | [], _ => none
  | c :: cs, cid => if c.id = cid then some c else findCharger cs cid

/-- In-place mutation of the found charger: replace the first charger with
the given id. -/
def replaceFirstCharger : List ChargePoint → String → ChargePoint → List ChargePoint
  | [], _, _ => []
  | c :: cs, cid, ch2 =>
    if c.id = cid then ch2 :: cs else c :: replaceFirstCharger cs cid ch2

/-- The numeric per-charger branches of `_applyWrite` (the boolean/string
tails - enabled, plugged, departure, id, reset - carry no numeric scaling
and are out of scope of this claim). -/
def applyEvcsNumericWrite (ch : ChargePoint) (tail : String) (v : JNum) :
    Option ChargePoint :=
  if tail = "ctrl.limit_kw" then
    some { ch with ctrl :=
      { ch.ctrl with limit_kw := clamp (normalizePowerKw v) 0 10000 } }
  else if tail = "ctrl.priority" then
    some { ch with ctrl := { ch.ctrl with priority := jsNumClamp v 1 10 } }
  else if tail = "vehicle.soc_pct" then
    some { ch with vehicle := { ch.vehicle with soc_pct := jsNumClamp v 0 100 } }
  else if tail = "vehicle.capacity_kwh" then
    some { ch with vehicle := { ch.vehicle with capacity_kwh := jsNumClamp v 1 1000 } }
  else if tail = "vehicle.max_charge_kw" then
    some { ch with vehicle := { ch.vehicle with max_charge_kw := jsNumClamp v 0 2000 } }
  else if tail = "vehicle.target_soc_pct" then
    some { ch with vehicle := { ch.vehicle with target_soc_pct := jsNumClamp v 0 100 } }
  else none

/-- The numeric branches of `_applyWrite(relId, value)`, in source order
(boolean/string branches omitted - they carry no numeric scaling).  `none`
means the id is not one of these numeric command fields (or the charger was
not found). -/
def applyNumericWrite (m : PlantModel) (relId : String) (v : JNum) :
    Option PlantModel :=
  if relId = "grid.limit_kw" then
    some { m with grid := { m.grid with limit_kw := jsNumClamp v 1 5000 } }
  else if relId = "grid.base_load_kw" then
    some { m with grid := { m.grid with base_load_kw := jsNumClamp v 0 5000 } }
  else if relId = "tariff.price_ct_per_kwh" then
    some { m with tariff :=
      { m.tariff with price_ct_per_kwh := jsNumClamp v (-500) 500 } }
  else if relId = "pv.installed_kwp" then
    some { m with pv := { m.pv with installed_kwp := jsNumClamp v 0 5000 } }
  else if relId = "pv.weather_factor" then
    some { m with pv := { m.pv with weather_factor := jsNumClamp v 0 1 } }
  else if relId = "pv.override.power_kw" then
    some { m with pv := { m.pv with override :=
      { m.pv.override with power_kw := jsNumClamp v 0 100000 } } }
  else if relId = "storage.capacity_kwh" then
    some { m with storage := { m.storage with capacity_kwh := jsNumClamp v 1 50000 } }
  else if relId = "storage.max_charge_kw" then
    some { m with storage := { m.storage with max_charge_kw := jsNumClamp v 0 50000 } }
  else if relId = "storage.max_discharge_kw" then
    some { m with storage :=
      { m.storage with max_discharge_kw := jsNumClamp v 0 50000 } }
  else if relId = "storage.soc_pct" then
    some { m with storage := { m.storage with soc_pct := jsNumClamp v 0 100 } }
  else if relId = "storage.ctrl.power_set_kw" then
    some { m with storage := { m.storage with ctrl :=
      { m.storage.ctrl with power_set_kw := normalizePowerKw v } } }
  else if relId = "heatpump.ctrl.power_set_kw" then
    some { m with heatpump := { m.heatpump with ctrl :=
      { m.heatpump.ctrl with power_set_kw := normalizePowerKw v } } }
  else if relId = "chp.ctrl.power_set_kw" then
    some { m with chp := { m.chp with ctrl :=
      { m.chp.ctrl with power_set_kw := normalizePowerKw v } } }
  else if relId = "generator.ctrl.power_set_kw" then
    some { m with generator := { m.generator with ctrl :=
      { m.generator.ctrl with power_set_kw := normalizePowerKw v } } }
  else
    match splitEvcsId relId with
    | none => none
    | some p =>
      match findCharger m.evcs p.1 with
      | none => none
      | some ch =>
        match applyEvcsNumericWrite ch p.2 v with
        | none => none
        | some ch2 => some { m with evcs := replaceFirstCharger m.evcs p.1 ch2 }

/-- A plant model holding a single charger with id `c01`. -/
def withSingleCharger (m : PlantModel) (ch : ChargePoint) : PlantModel :=
  { m with evcs := [{ ch with id := "c01" }] }

/-- C10 — Writes to `storage.ctrl.power_set_kw`, the
heatpump/chp/generator `ctrl.power_set_kw` and `evcs.cNN.ctrl.limit_kw`
are interpreted as Watts and divided by 1000 before being stored in the
kW-based model (non-finite inputs become 0), despite the `_kw` names; every
other numeric command field is stored (clamped) without this scaling. -/
theorem spec_C10 (m : PlantModel) (ch : ChargePoint) (v : JNum) (q : ℚ) :
    (normalizePowerKw (JNum.fin q) = q / 1000
      ∧ normalizePowerKw JNum.nan = 0
      ∧ normalizePowerKw JNum.inf = 0
      ∧ normalizePowerKw JNum.ninf = 0)
    ∧ applyNumericWrite m "storage.ctrl.power_set_kw" v
        = some { m with storage := { m.storage with ctrl :=
            { m.storage.ctrl with power_set_kw := normalizePowerKw v } } }
    ∧ applyNumericWrite m "heatpump.ctrl.power_set_kw" v
        = some { m with heatpump := { m.heatpump with ctrl :=
            { m.heatpump.ctrl with power_set_kw := normalizePowerKw v } } }
    ∧ applyNumericWrite m "chp.ctrl.power_set_kw" v
        = some { m with chp := { m.chp with ctrl :=
            { m.chp.ctrl with power_set_kw := normalizePowerKw v } } }
    ∧ applyNumericWrite m "generator.ctrl.power_set_kw" v
        = some { m with generator := { m.generator with ctrl :=
            { m.generator.ctrl with power_set_kw := normalizePowerKw v } } }
    ∧ applyNumericWrite (withSingleCharger m ch) "evcs.c01.ctrl.limit_kw" v
        = some { withSingleCharger m ch with evcs :=
            [{ ch with id := "c01", ctrl :=
              { ch.ctrl with limit_kw := clamp (normalizePowerKw v) 0 10000 } }] }
    ∧ applyNumericWrite m "grid.limit_kw" v
        = some { m with grid := { m.grid with limit_kw := jsNumClamp v 1 5000 } }
    ∧ applyNumericWrite m "grid.base_load_kw" v
        = some { m with grid := { m.grid with base_load_kw := jsNumClamp v 0 5000 } }
    ∧ applyNumericWrite m "tariff.price_ct_per_kwh" v
        = some { m with tariff :=
            { m.tariff with price_ct_per_kwh := jsNumClamp v (-500) 500 } }
    ∧ applyNumericWrite m "pv.installed_kwp" v
        = some { m with pv := { m.pv with installed_kwp := jsNumClamp v 0 5000 } }
    ∧ applyNumericWrite m "pv.weather_factor" v
        = some { m with pv := { m.pv with weather_factor := jsNumClamp v 0 1 } }
    ∧ applyNumericWrite m "pv.override.power_kw" v
        = some { m with pv := { m.pv with override :=
            { m.pv.override with power_kw := jsNumClamp v 0 100000 } } }
    ∧ applyNumericWrite m "storage.capacity_kwh" v
        = some { m with storage :=
            { m.storage with capacity_kwh := jsNumClamp v 1 50000 } }
    ∧ applyNumericWrite m "storage.max_charge_kw" v
        = some { m with storage :=
            { m.storage with max_charge_kw := jsNumClamp v 0 50000 } }
    ∧ applyNumericWrite m "storage.max_discharge_kw" v
        = some { m with storage :=
            { m.storage with max_discharge_kw := jsNumClamp v 0 50000 } }
    ∧ applyNumericWrite m "storage.soc_pct" v
        = some { m with storage := { m.storage with soc_pct := jsNumClamp v 0 100 } }
    ∧ applyNumericWrite (withSingleCharger m ch) "evcs.c01.ctrl.priority" v
        = some { withSingleCharger m ch with evcs :=
            [{ ch with id := "c01", ctrl :=
              { ch.ctrl with priority := jsNumClamp v 1 10 } }] }
    ∧ applyNumericWrite (withSingleCharger m ch) "evcs.c01.vehicle.soc_pct" v
        = some { withSingleCharger m ch with evcs :=
            [{ ch with id := "c01", vehicle :=
              { ch.vehicle with soc_pct := jsNumClamp v 0 100 } }] }
    ∧ applyNumericWrite (withSingleCharger m ch) "evcs.c01.vehicle.capacity_kwh" v
        = some { withSingleCharger m ch with evcs :=
            [{ ch with id := "c01", vehicle :=
              { ch.vehicle with capacity_kwh := jsNumClamp v 1 1000 } }] }
    ∧ applyNumericWrite (withSingleCharger m ch) "evcs.c01.vehicle.max_charge_kw" v
        = some { withSingleCharger m ch with evcs :=
            [{ ch with id := "c01", vehicle :=
              { ch.vehicle with max_charge_kw := jsNumClamp v 0 2000 } }] }
    ∧ applyNumericWrite (withSingleCharger m ch) "evcs.c01.vehicle.target_soc_pct" v
        = some { withSingleCharger m ch with evcs :=
            [{ ch with id := "c01", vehicle :=
              { ch.vehicle with target_soc_pct := jsNumClamp v 0 100 } }] } := by
  exact ⟨⟨rfl, rfl, rfl, rfl⟩, rfl, rfl, rfl, rfl, rfl, rfl, rfl, rfl, rfl, rfl,
    rfl, rfl, rfl, rfl, rfl, rfl, rfl, rfl, rfl, rfl⟩

end NexoWattSim
